import Mathlib

/-!
Verification of the GitHub-Repository-Statistics aggregation pipeline.

The Python sources are shallowly embedded as executable Lean definitions:

* `repository_metric.py` — `RepositoryMetric`, `RepositoryTrafficMetric`
  (metric accumulators, rolling date window), `RepositoryMetricsTracker`;
* `api_utils.py` — `GitHubAPIHandler.get_response` / `handle_rate_limit`,
  modelled as a pure function from an oracle of attempt outcomes to a result
  and a trace of observable events (attempts, back-off sleeps, rate sleeps);
* `main.py` — `get_repositories` (paginated fetch with link-header walking)
  and `process_repository` (per-repository fold into the shared tracker).

Python dictionaries are modelled as insertion-ordered association lists,
Python integers as `Int`, and `datetime.date` values as days since
1970-01-01, rendered through the standard civil-from-days conversion
(the same proleptic-Gregorian calendar Python's `datetime` uses).
-/

/-- Gregorian civil date `(year, month, day)` from days since 1970-01-01,
by the standard era-decomposition algorithm; this models the calendar
arithmetic and rendering of Python `datetime.date`. -/
def civilFromDays (z0 : Nat) : Nat × Nat × Nat :=
  let z := z0 + 719468
  let era := z / 146097
  let doe := z % 146097
  let yoe := (doe - doe / 1460 + doe / 36524 - doe / 146096) / 365
  let y := yoe + era * 400
  let doy := doe - (365 * yoe + yoe / 4 - yoe / 100)
  let mp := (5 * doy + 2) / 153
  let d := doy - (153 * mp + 2) / 5 + 1
  let m := if mp < 10 then mp + 3 else mp - 9
  (if m ≤ 2 then y + 1 else y, m, d)

/-- Inverse calendar conversion: days since 1970-01-01 from a Gregorian
civil date. Used only to prove that `civilFromDays` is injective. -/
def daysFromCivil (y m d : Nat) : Nat :=
  let yAdj := if m ≤ 2 then y - 1 else y
  let era := yAdj / 400
  let yoe := yAdj % 400
  let doy := (153 * (if 2 < m then m - 3 else m + 9) + 2) / 5 + d - 1
  let doe := yoe * 365 + yoe / 4 - yoe / 100 + doy
  era * 146097 + doe - 719468

/-- Day-of-era correction sum used inside `civilFromDays` to locate the
year of era. -/
def fAccum (x : Nat) : Nat := x - x / 1460 + x / 36524 - x / 146096

/-- First day of era of a given year of era (0-based, counted from the
era start). -/
def dstart (y : Nat) : Nat := 365 * y + y / 4 - y / 100

/-- Last day of era belonging to a given year of era. -/
def lastDoe (y : Nat) : Nat := if y = 399 then 146096 else dstart (y + 1) - 1

/-- Boundary check for one year of era: the correction sum lands in the
right 365-block at both ends of the year. -/
def yearOk (y : Nat) : Bool :=
  Nat.ble (365 * y) (fAccum (dstart y)) && Nat.ble (fAccum (lastDoe y)) (365 * y + 364)

/-- Conjunction of `yearOk` over all years of era below the argument. -/
def checkYears : Nat → Bool
  | 0 => true
  | y + 1 => yearOk y && checkYears y

/-- Decimal digit character. -/
def digitChar (n : Nat) : Char := Char.ofNat (48 + n)

/-- Fixed-width ISO-8601 date rendering `YYYY-MM-DD` of a day ordinal, as
produced by Python string conversion of a `datetime.date`. -/
def isoDate (z : Nat) : String :=
  String.mk [digitChar ((civilFromDays z).1 / 1000 % 10),
             digitChar ((civilFromDays z).1 / 100 % 10),
             digitChar ((civilFromDays z).1 / 10 % 10),
             digitChar ((civilFromDays z).1 % 10), '-',
             digitChar ((civilFromDays z).2.1 / 10 % 10),
             digitChar ((civilFromDays z).2.1 % 10), '-',
             digitChar ((civilFromDays z).2.2 / 10 % 10),
             digitChar ((civilFromDays z).2.2 % 10)]

/-- Timestamp key `f"{date}T00:00:00Z"` as built by
`RepositoryTrafficMetric.generate_past_dates`. -/
def isoTimestamp (z : Nat) : String := isoDate z ++ "T00:00:00Z"

/-- Shape check for a string of the form `YYYY-MM-DDT00:00:00Z`. -/
def isIsoTimestampShape (s : String) : Bool :=
  match s.data with
  | [y1, y2, y3, y4, s1, m1, m2, s2, d1, d2, t1, a1, a2, c1, b1, b2, c2, e1, e2, zc] =>
    y1.isDigit && y2.isDigit && y3.isDigit && y4.isDigit &&
    m1.isDigit && m2.isDigit && d1.isDigit && d2.isDigit &&
    s1 == '-' && s2 == '-' && t1 == 'T' && a1 == '0' && a2 == '0' &&
    c1 == ':' && b1 == '0' && b2 == '0' && c2 == ':' &&
    e1 == '0' && e2 == '0' && zc == 'Z'
  | _ => false

/-- Lookup in an insertion-ordered association list (Python `dict.get(k)`). -/
def alGet {κ α : Type} [DecidableEq κ] : List (κ × α) → κ → Option α
  | [], _ => none
  | (k, a) :: rest, k2 => if k = k2 then some a else alGet rest k2

/-- Lookup with default (Python `dict.get(k, dflt)`). -/
def alGetD {κ α : Type} [DecidableEq κ] (m : List (κ × α)) (k : κ) (dflt : α) : α :=
  (alGet m k).getD dflt

/-- Python `dict.setdefault(k, dflt)` followed by an in-place update of the
stored value: inserts `(k, f dflt)` at the end when the key is absent,
otherwise applies `f` to the stored value. -/
def alUpsert {κ α : Type} [DecidableEq κ] : List (κ × α) → κ → α → (α → α) → List (κ × α)
  | [], k, dflt, f => [(k, f dflt)]
  | (k2, a) :: rest, k, dflt, f =>
    if k2 = k then (k2, f a) :: rest else (k2, a) :: alUpsert rest k dflt f

/-- State of `repository_metric.RepositoryMetric`. -/
structure RepositoryMetric where
  name : String
  total_metric_count : Int
  max_metric_count : Int
  repos_grouped_by_metric : List (Int × List String)
  deriving DecidableEq

/-- `RepositoryMetric.__init__`. -/
def RepositoryMetric.init (name : String) : RepositoryMetric :=
  { name := name, total_metric_count := 0, max_metric_count := 0,
    repos_grouped_by_metric := [] }

/-- `RepositoryMetric.add_repository_metric` (repository_metric.py, lines 29-43). -/
def RepositoryMetric.add_repository_metric (self : RepositoryMetric)
    (repository_name : String) (metric_count : Int) : RepositoryMetric :=
  { self with
    total_metric_count := self.total_metric_count + metric_count,
    max_metric_count := max self.max_metric_count metric_count,
    repos_grouped_by_metric :=
      alUpsert self.repos_grouped_by_metric metric_count []
        (fun l => l ++ [repository_name]) }

/-- `RepositoryMetric.get_top_repositories` (repository_metric.py, lines 46-54). -/
def RepositoryMetric.get_top_repositories (self : RepositoryMetric) : List String :=
  alGetD self.repos_grouped_by_metric self.max_metric_count []

/-- One element of a traffic list (`{timestamp, count, uniques}`-shaped dict
from the GitHub traffic API). The timestamp is kept separately because it is
read as `metric.get("timestamp")` and used as a dictionary key (possibly
`None`); the numeric fields are an association list read via
`metric.get(self.name, 0)`. -/
structure TrafficEntry where
  timestamp : Option String
  fields : List (String × Int)
  deriving DecidableEq

/-- A raw traffic payload: maps a traffic kind (`"views"` / `"clones"`) to
its entry list, as returned by `response.json()`. -/
abbrev TrafficData : Type := List (String × List TrafficEntry)

/-- `RepositoryTrafficMetric.generate_past_dates` (repository_metric.py,
lines 125-143): ISO keys for `days_back` consecutive UTC dates starting
`days_back` days before the construction date, each mapped to `[0, []]`.
The construction instant is the day ordinal `todayOrdinal` (days since
1970-01-01); the source defaults `days_back` to 14. -/
def generate_past_dates (todayOrdinal : Nat) (days_back : Nat) :
    List (String × (Int × List (String × Int))) :=
  (List.range days_back).map (fun day_offset =>
    (isoTimestamp (todayOrdinal - days_back + day_offset), (0, [])))

/-- State of `repository_metric.RepositoryTrafficMetric`. The inherited
`RepositoryMetric` part lives in `base` (so `self.name` of the source is
`base.name` here); `total_metric_at_timestamps` maps timestamp keys (the
key may be `None` when an entry has no timestamp) to a running total and
the ordered list of per-repository contributions. -/
structure RepositoryTrafficMetric where
  metric_type : String
  base : RepositoryMetric
  total_metric_at_timestamps : List (Option String × (Int × List (String × Int)))
  deriving DecidableEq

/-- `RepositoryTrafficMetric.__init__` (repository_metric.py, lines 83-94),
with the construction date passed explicitly as a day ordinal. -/
def RepositoryTrafficMetric.init (metric_type : String) (name : String)
    (todayOrdinal : Nat) : RepositoryTrafficMetric :=
  { metric_type := metric_type,
    base := RepositoryMetric.init name,
    total_metric_at_timestamps :=
      (generate_past_dates todayOrdinal 14).map (fun p => (some p.1, p.2)) }

/-- `RepositoryTrafficMetric.add_repository_traffic_metric`
(repository_metric.py, lines 97-122): one pass over the payload entries
accumulating the per-repository total and updating the timestamp window,
followed by a single `add_repository_metric` call on the base accumulator. -/
def RepositoryTrafficMetric.add_repository_traffic_metric
    (self : RepositoryTrafficMetric) (repository_name : String)
    (metric_data : TrafficData) : RepositoryTrafficMetric :=
  let r := (alGetD metric_data self.metric_type []).foldl
    (fun (acc : Int × List (Option String × (Int × List (String × Int)))) metric =>
      (acc.1 + alGetD metric.fields self.base.name 0,
       alUpsert acc.2 metric.timestamp (0, [])
         (fun e => (e.1 + alGetD metric.fields self.base.name 0,
                    e.2 ++ [(repository_name, alGetD metric.fields self.base.name 0)]))))
    (0, self.total_metric_at_timestamps)
  { self with
    total_metric_at_timestamps := r.2,
    base := self.base.add_repository_metric repository_name r.1 }

/-- `repository_metric.RepositoryMetricsTracker`: the seven named
accumulators (source field `unique_vistors` keeps the source spelling). -/
structure RepositoryMetricsTracker where
  stargazers : RepositoryMetric
  watchers : RepositoryMetric
  forks : RepositoryMetric
  views : RepositoryTrafficMetric
  unique_vistors : RepositoryTrafficMetric
  clones : RepositoryTrafficMetric
  unique_cloners : RepositoryTrafficMetric
  deriving DecidableEq

/-- `RepositoryMetricsTracker.__init__` (repository_metric.py, lines 171-180). -/
def RepositoryMetricsTracker.init (todayOrdinal : Nat) : RepositoryMetricsTracker :=
  { stargazers := RepositoryMetric.init "stargazers_count",
    watchers := RepositoryMetric.init "watchers_count",
    forks := RepositoryMetric.init "forks_count",
    views := RepositoryTrafficMetric.init "views" "count" todayOrdinal,
    unique_vistors := RepositoryTrafficMetric.init "views" "uniques" todayOrdinal,
    clones := RepositoryTrafficMetric.init "clones" "count" todayOrdinal,
    unique_cloners := RepositoryTrafficMetric.init "clones" "uniques" todayOrdinal }

/-- A repository descriptor as consumed by `main.py`: its name, the owner
login (`repo["owner"]["login"]`) and the scalar count fields of the JSON
object, kept as an association list read via `repository.get(key, 0)`. -/
structure Repository where
  name : String
  owner_login : String
  counts : List (String × Int)
  deriving DecidableEq

/-- The mutation phase of `main.process_repository` (main.py, lines 106-117):
the seven record calls performed under the lock, given the repository
descriptor and the two fetched traffic payloads. -/
def process_repository (metric_tracker : RepositoryMetricsTracker)
    (repository : Repository) (views_json clones_json : TrafficData) :
    RepositoryMetricsTracker :=
  { stargazers := metric_tracker.stargazers.add_repository_metric repository.name
      (alGetD repository.counts metric_tracker.stargazers.name 0),
    watchers := metric_tracker.watchers.add_repository_metric repository.name
      (alGetD repository.counts metric_tracker.watchers.name 0),
    forks := metric_tracker.forks.add_repository_metric repository.name
      (alGetD repository.counts metric_tracker.forks.name 0),
    views := metric_tracker.views.add_repository_traffic_metric repository.name views_json,
    unique_vistors := metric_tracker.unique_vistors.add_repository_traffic_metric
      repository.name views_json,
    clones := metric_tracker.clones.add_repository_traffic_metric repository.name clones_json,
    unique_cloners := metric_tracker.unique_cloners.add_repository_traffic_metric
      repository.name clones_json }

/-- One repository unit of the concurrent fan-out: the descriptor together
with the two traffic payloads its fetches produced (a failed fetch yields
the empty payload, as in `main.process_repository`). -/
structure RepositoryFetchResult where
  repository : Repository
  views_json : TrafficData
  clones_json : TrafficData
  deriving DecidableEq

/-- The window-total a single payload contributes to the base accumulator of
a traffic metric: the sum over the payload entries of the value at the
metric key (cf. the accumulation loop of `add_repository_traffic_metric`). -/
def trafficContribution (metric_type keyName : String) (payload : TrafficData) : Int :=
  ((alGetD payload metric_type []).map (fun m => alGetD m.fields keyName 0)).sum

/-- Serialized execution of the mutation phases of all repository units, in
the given completion order, starting from a freshly constructed tracker. -/
def run_repositories (todayOrdinal : Nat) (l : List RepositoryFetchResult) :
    RepositoryMetricsTracker :=
  l.foldl (fun t r => process_repository t r.repository r.views_json r.clones_json)
    (RepositoryMetricsTracker.init todayOrdinal)

/-- Driver for a sequence of `add_repository_metric` calls. -/
def recordAll (s : RepositoryMetric) (l : List (String × Int)) : RepositoryMetric :=
  l.foldl (fun a p => a.add_repository_metric p.1 p.2) s

/-- An HTTP response as observed by `api_utils.GitHubAPIHandler`: status
code plus the parsed rate-limit headers (`X-RateLimit-Remaining`,
`X-RateLimit-Reset`). -/
structure HttpResponse where
  status : Nat
  remaining : Int
  reset : Int
  deriving DecidableEq

/-- Outcome of one attempt of `client.get`: a transport-level exception, or
a response object. -/
inductive AttemptOutcome where
  | exn : AttemptOutcome
  | ok : HttpResponse → AttemptOutcome

/-- Observable events of `GitHubAPIHandler.get_response`: an attempt with
its 0-based index, a rate-limit sleep (seconds, possibly negative as
computed by the source), and an exponential back-off sleep. -/
inductive ApiEvent where
  | attempt : Nat → ApiEvent
  | rateSleep : Int → ApiEvent
  | backoffSleep : Nat → ApiEvent
  deriving DecidableEq

/-- `GitHubAPIHandler.handle_rate_limit` (api_utils.py, lines 76-112) as the
list of sleep events it performs: when the remaining quota is ≤ 0 it sleeps
`reset - now + 1` seconds, otherwise it does nothing. -/
def handle_rate_limit (now : Int) (remaining : Int) (reset : Int) : List ApiEvent :=
  if remaining ≤ 0 then [ApiEvent.rateSleep (reset - now + 1)] else []

/-- The retry loop of `GitHubAPIHandler.get_response` (api_utils.py, lines
27-73), from attempt index `i` with `n` attempts remaining. The oracle
gives the outcome of each attempt; `nowAt` gives the epoch seconds at the
rate-limit check of each attempt. Returns the result (the first status-200
response, else `none`) and the ordered event trace. -/
def get_response_aux (retries delay backoff_factor : Nat)
    (oracle : Nat → AttemptOutcome) (nowAt : Nat → Int) :
    Nat → Nat → Option HttpResponse × List ApiEvent
  | _, 0 => (none, [])
  | i, n + 1 =>
    match oracle i with
    | AttemptOutcome.exn =>
      let backoff := if i < retries
        then [ApiEvent.backoffSleep (delay * backoff_factor ^ (i + 1))] else []
      let rest := get_response_aux retries delay backoff_factor oracle nowAt (i + 1) n
      (rest.1, ApiEvent.attempt i :: (backoff ++ rest.2))
    | AttemptOutcome.ok r =>
      let rateEvents := handle_rate_limit (nowAt i) r.remaining r.reset
      if r.status = 200 then
        (some r, ApiEvent.attempt i :: rateEvents)
      else
        let backoff := if i < retries
          then [ApiEvent.backoffSleep (delay * backoff_factor ^ (i + 1))] else []
        let rest := get_response_aux retries delay backoff_factor oracle nowAt (i + 1) n
        (rest.1, (ApiEvent.attempt i :: rateEvents) ++ backoff ++ rest.2)

/-- `GitHubAPIHandler.get_response`: `1 + retries` total attempts starting
at index 0. -/
def get_response (retries delay backoff_factor : Nat)
    (oracle : Nat → AttemptOutcome) (nowAt : Nat → Int) :
    Option HttpResponse × List ApiEvent :=
  get_response_aux retries delay backoff_factor oracle nowAt 0 (1 + retries)

/-- Attempt events of a trace. -/
def isAttemptEvent : ApiEvent → Bool
  | ApiEvent.attempt _ => true
  | _ => false

/-- Back-off sleep durations of a trace, in order. -/
def backoffSeconds (evs : List ApiEvent) : List Nat :=
  evs.filterMap (fun e => match e with
    | ApiEvent.backoffSleep s => some s
    | _ => none)

/-- Whether an attempt outcome is a status-200 response. -/
def isSuccess200 : AttemptOutcome → Bool
  | AttemptOutcome.ok r => r.status == 200
  | AttemptOutcome.exn => false

/-- One page of the repository-list endpoint: the parsed item collection
and the optional `Link` response header. -/
structure PageResponse where
  items : List Repository
  linkHeader : Option String
  deriving DecidableEq

/-- Whether the first list occurs contiguously inside the second. -/
def hasPrefixL : List Char → List Char → Bool
  | [], _ => true
  | _ :: _, [] => false
  | a :: as, b :: bs => a == b && hasPrefixL as bs

/-- Substring occurrence check (Python `in` on strings). -/
def hasInfixL (pat : List Char) : List Char → Bool
  | [] => hasPrefixL pat []
  | l@(_ :: rest) => hasPrefixL pat l || hasInfixL pat rest

/-- Python `pattern in s`. -/
def containsSub (pattern s : String) : Bool := hasInfixL pattern.data s.data

/-- Python `s.strip("<> ")`: removes any of the characters from both ends. -/
def pyStrip (s : String) : String :=
  let isStripChar := fun (c : Char) => c == '<' || c == '>' || c == ' '
  String.mk (((s.data.dropWhile isStripChar).reverse.dropWhile isStripChar).reverse)

/-- Splitting of a character list at every occurrence of a separator
character, accumulating the current piece in reverse. -/
def splitOnCharAux (sep : Char) : List Char → List Char → List (List Char)
  | [], acc => [acc.reverse]
  | c :: rest, acc =>
    if c = sep then acc.reverse :: splitOnCharAux sep rest []
    else splitOnCharAux sep rest (c :: acc)

/-- Python `s.split(sep)` for a one-character separator. -/
def pySplit (s : String) (sep : Char) : List String :=
  (splitOnCharAux sep s.data []).map String.mk

/-- Link-header walk of `main.get_repositories` (main.py, lines 46-54):
split on commas, take the first part containing the next-relation marker,
and extract its URL part. -/
def findNextUrl (link_header : String) : Option String :=
  let urls := pySplit link_header ','
  match urls.find? (fun u => containsSub "rel=\"next\"" u) with
  | some u => some (pyStrip ((pySplit u ';').headD ""))
  | none => none

/-- Next URL from an optional link header: Python treats a missing header
and an empty header string as falsy and stops. -/
def nextUrlOf (linkHeader : Option String) : Option String :=
  match linkHeader with
  | none => none
  | some lh => if lh = "" then none else findNextUrl lh

/-- The pagination loop of `main.get_repositories` (main.py, lines 36-60):
fetch the current URL, extend with the parsed items (a failed fetch
contributes nothing and clears the link header, ending the loop), follow
the next-relation link. `fuel` bounds the number of iterations so the
function is total; every finite page chain is covered by a large enough
fuel. -/
def get_repositories_loop (fetch : String → Option PageResponse) :
    Nat → Option String → List Repository
  | _, none => []
  | 0, some _ => []
  | fuel + 1, some url =>
    match fetch url with
    | none => []
    | some resp => resp.items ++ get_repositories_loop fetch fuel (nextUrlOf resp.linkHeader)

/-- The initial repository-list URL of `main.get_repositories`. -/
def github_repos_url (visibility : String) : String :=
  "https://api.github.com/user/repos?per_page=100&visibility=" ++ visibility

/-- `main.get_repositories` (main.py, lines 19-69): the pagination loop
followed by the ownership filter `repo["owner"]["login"] == user_name`. -/
def get_repositories (user_name : String) (fetch : String → Option PageResponse)
    (fuel : Nat) (visibility : String) : List Repository :=
  (get_repositories_loop fetch fuel (some (github_repos_url visibility))).filter
    (fun repo => repo.owner_login == user_name)

/-- A finite chain of successfully fetched pages starting at a URL: each
page is fetched from its URL, consecutive pages are linked by the
next-relation of the link header, and the chain ends either at a page with
no next link or at a page whose next link fails to fetch. -/
inductive PageChain (fetch : String → Option PageResponse) : String → List PageResponse → Prop where
  | last : ∀ url p, fetch url = some p → nextUrlOf p.linkHeader = none →
      PageChain fetch url [p]
  | failNext : ∀ url p u, fetch url = some p → nextUrlOf p.linkHeader = some u →
      fetch u = none → PageChain fetch url [p]
  | step : ∀ url p u ps, fetch url = some p → nextUrlOf p.linkHeader = some u →
      PageChain fetch u ps → PageChain fetch url (p :: ps)

/-- Shorthand for a minimal repository descriptor owned by a given login. -/
def mkRepo (nm login : String) : Repository :=
  { name := nm, owner_login := login, counts := [] }

/-- Test fixture: first of three linked pages of the repository endpoint. -/
def examplePage1 : PageResponse :=
  { items := [mkRepo "r1" "woodsj1206", mkRepo "r2" "woodsj1206"],
    linkHeader := some "<https://api.github.com/user/repos?page=2>; rel=\"next\"" }

/-- Test fixture: second of three linked pages. -/
def examplePage2 : PageResponse :=
  { items := [mkRepo "r3" "woodsj1206", mkRepo "r4" "woodsj1206"],
    linkHeader := some "<https://api.github.com/user/repos?page=3>; rel=\"next\", <https://api.github.com/user/repos?page=3>; rel=\"last\"" }

/-- Test fixture: final page with no next link. -/
def examplePage3 : PageResponse :=
  { items := [mkRepo "r5" "woodsj1206", mkRepo "r6" "woodsj1206"],
    linkHeader := none }

/-- Test fixture: a fetch oracle serving the three linked pages. -/
def exampleFetch (url : String) : Option PageResponse :=
  if url = github_repos_url "public" then some examplePage1
  else if url = "https://api.github.com/user/repos?page=2" then some examplePage2
  else if url = "https://api.github.com/user/repos?page=3" then some examplePage3
  else none

/-- Test fixture: a single page holding one owned and one foreign
repository. -/
def exampleMixedFetch (url : String) : Option PageResponse :=
  if url = github_repos_url "public" then
    some { items := [mkRepo "mine" "woodsj1206", mkRepo "theirs" "someone-else"],
           linkHeader := none }
  else none

theorem checkYears_sound : ∀ n, checkYears n = true → ∀ y, y < n → yearOk y = true := by
  intro n
  induction n with
  | zero => intro _ y hy; omega
  | succ k ih =>
    intro h y hy
    simp only [checkYears, Bool.and_eq_true] at h
    rcases Nat.lt_succ_iff_lt_or_eq.mp hy with h2 | h2
    · exact ih h.2 y h2
    · subst h2; exact h.1

set_option maxRecDepth 4000 in
theorem yearOk_all : ∀ y, y < 400 → yearOk y = true :=
  checkYears_sound 400 (by rfl)

theorem fAccum_step (x : Nat) : fAccum x ≤ fAccum (x + 1) := by
  simp only [fAccum]; omega

theorem fAccum_mono {a b : Nat} (h : a ≤ b) : fAccum a ≤ fAccum b := by
  induction h with
  | refl => exact Nat.le_refl _
  | step _ ih => exact Nat.le_trans ih (fAccum_step _)

theorem dstart_cover : ∀ N, N ≤ 400 → ∀ doe, doe < dstart N →
    ∃ y, y < N ∧ dstart y ≤ doe ∧ doe + 1 ≤ dstart (y + 1) := by
  intro N
  induction N with
  | zero => intro _ doe h; simp only [dstart] at h; omega
  | succ k ih =>
    intro hk doe h
    by_cases h2 : doe < dstart k
    · obtain ⟨y, hy, ha, hb⟩ := ih (by omega) doe h2
      exact ⟨y, by omega, ha, hb⟩
    · exact ⟨k, by omega, by omega, by omega⟩

theorem cover400 : ∀ doe, doe < 146097 →
    ∃ y, y ≤ 399 ∧ dstart y ≤ doe ∧ doe ≤ lastDoe y := by
  intro doe h
  by_cases h2 : doe < dstart 400
  · obtain ⟨y, hy, ha, hb⟩ := dstart_cover 400 (Nat.le_refl _) doe h2
    refine ⟨y, by omega, ha, ?_⟩
    simp only [lastDoe]
    split_ifs with hy399
    · omega
    · omega
  · have hl : lastDoe 399 = 146096 := by norm_num [lastDoe]
    have hd399 : dstart 399 = 145731 := by norm_num [dstart]
    have hd400 : dstart 400 = 146096 := by norm_num [dstart]
    exact ⟨399, Nat.le_refl _, by omega, by omega⟩

theorem yoe_correct (doe : Nat) (h : doe < 146097) :
    fAccum doe / 365 ≤ 399 ∧ dstart (fAccum doe / 365) ≤ doe ∧
    doe - dstart (fAccum doe / 365) ≤ 365 := by
  obtain ⟨y, hy, hlo, hhi⟩ := cover400 doe h
  have hok := yearOk_all y (by omega)
  simp only [yearOk, Bool.and_eq_true, Nat.ble_eq] at hok
  have m1 : fAccum (dstart y) ≤ fAccum doe := fAccum_mono hlo
  have m2 : fAccum doe ≤ fAccum (lastDoe y) := fAccum_mono hhi
  have hyeq : fAccum doe / 365 = y := by omega
  rw [hyeq]
  have hlast : lastDoe y ≤ dstart y + 365 := by
    simp only [lastDoe, dstart]
    split_ifs <;> omega
  refine ⟨by omega, hlo, by omega⟩

theorem inner_core (doe yoe doy mp d m : Nat)
    (h : doe < 146097)
    (hyoe : yoe = (doe - doe / 1460 + doe / 36524 - doe / 146096) / 365)
    (hdoy : doy = doe - (365 * yoe + yoe / 4 - yoe / 100))
    (hmp : mp = (5 * doy + 2) / 153)
    (hd : d = doy - (153 * mp + 2) / 5 + 1)
    (hm : m = if mp < 10 then mp + 3 else mp - 9) :
    1 ≤ m ∧ m ≤ 12 ∧ 1 ≤ d ∧ d ≤ 31 ∧ yoe ≤ 399 ∧
    yoe * 365 + yoe / 4 - yoe / 100 + ((153 * (if 2 < m then m - 3 else m + 9) + 2) / 5 + d - 1) = doe ∧
    (m ≤ 2 → 365 * yoe + yoe / 4 - yoe / 100 + 306 ≤ doe) := by
  have hcor := yoe_correct doe h
  simp only [fAccum, dstart] at hcor
  rw [← hyoe] at hcor
  clear hyoe
  split_ifs at hm ⊢ <;> omega

theorem daysFromCivil_assemble (era doe yoe d m y : Nat)
    (hyoe : yoe ≤ 399)
    (hrec : yoe * 365 + yoe / 4 - yoe / 100 + ((153 * (if 2 < m then m - 3 else m + 9) + 2) / 5 + d - 1) = doe)
    (hy : y = if m ≤ 2 then yoe + era * 400 + 1 else yoe + era * 400) :
    daysFromCivil y m d = 146097 * era + doe - 719468 := by
  have e1 : (yoe + era * 400) / 400 = era := by omega
  have e2 : (yoe + era * 400) % 400 = yoe := by omega
  simp only [daysFromCivil]
  split_ifs at hrec hy ⊢ <;> subst hy <;> (try simp only [Nat.add_sub_cancel]) <;>
    (try rw [e1, e2]) <;> omega

theorem civil_roundtrip (z : Nat) :
    daysFromCivil (civilFromDays z).1 (civilFromDays z).2.1 (civilFromDays z).2.2 = z := by
  have h1 : (z + 719468) % 146097 < 146097 := Nat.mod_lt _ (by omega)
  have hin := inner_core ((z + 719468) % 146097) _ _ _ _ _ h1 rfl rfl rfl rfl rfl
  have has := daysFromCivil_assemble ((z + 719468) / 146097) ((z + 719468) % 146097)
    _ _ _ _ hin.2.2.2.2.1 hin.2.2.2.2.2.1 rfl
  simp only [civilFromDays]
  rw [has]
  omega

theorem civil_bounds (z : Nat) :
    1 ≤ (civilFromDays z).2.1 ∧ (civilFromDays z).2.1 ≤ 12 ∧
    1 ≤ (civilFromDays z).2.2 ∧ (civilFromDays z).2.2 ≤ 31 := by
  have h1 : (z + 719468) % 146097 < 146097 := Nat.mod_lt _ (by omega)
  have hin := inner_core ((z + 719468) % 146097) _ _ _ _ _ h1 rfl rfl rfl rfl rfl
  simp only [civilFromDays]
  exact ⟨hin.1, hin.2.1, hin.2.2.1, hin.2.2.2.1⟩

theorem year_core (era doe yoe doy mp d m y : Nat)
    (h : doe < 146097)
    (hyoe : yoe = (doe - doe / 1460 + doe / 36524 - doe / 146096) / 365)
    (hdoy : doy = doe - (365 * yoe + yoe / 4 - yoe / 100))
    (hmp : mp = (5 * doy + 2) / 153)
    (hd : d = doy - (153 * mp + 2) / 5 + 1)
    (hm : m = if mp < 10 then mp + 3 else mp - 9)
    (hy : y = if m ≤ 2 then yoe + era * 400 + 1 else yoe + era * 400)
    (hz : 146097 * era + doe ≤ 3652364) :
    y ≤ 9999 := by
  have hin := inner_core doe yoe doy mp d m h hyoe hdoy hmp hd hm
  have hyoe2 := hin.2.2.2.2.1
  have hov := hin.2.2.2.2.2.2
  by_cases hm2 : m ≤ 2
  · have hlow := hov hm2
    rw [hy, if_pos hm2]
    omega
  · rw [hy, if_neg hm2]
    omega

theorem civil_year_le (z : Nat) (hz : z ≤ 2932896) : (civilFromDays z).1 ≤ 9999 := by
  have h1 : (z + 719468) % 146097 < 146097 := Nat.mod_lt _ (by omega)
  have hy := year_core ((z + 719468) / 146097) ((z + 719468) % 146097)
    _ _ _ _ _ _ h1 rfl rfl rfl rfl rfl rfl (by omega)
  simp only [civilFromDays]
  exact hy

theorem digitChar_inj : ∀ a, a < 10 → ∀ b, b < 10 → digitChar a = digitChar b → a = b := by
  decide

theorem digitChar_isDigit : ∀ a, a < 10 → (digitChar a).isDigit = true := by
  decide

theorem isoTimestamp_data (z : Nat) :
    (isoTimestamp z).data =
      [digitChar ((civilFromDays z).1 / 1000 % 10),
       digitChar ((civilFromDays z).1 / 100 % 10),
       digitChar ((civilFromDays z).1 / 10 % 10),
       digitChar ((civilFromDays z).1 % 10), '-',
       digitChar ((civilFromDays z).2.1 / 10 % 10),
       digitChar ((civilFromDays z).2.1 % 10), '-',
       digitChar ((civilFromDays z).2.2 / 10 % 10),
       digitChar ((civilFromDays z).2.2 % 10),
       'T', '0', '0', ':', '0', '0', ':', '0', '0', 'Z'] := rfl

theorem isoTimestamp_shape (z : Nat) : isIsoTimestampShape (isoTimestamp z) = true := by
  have hmod : ∀ n : Nat, n % 10 < 10 := fun n => Nat.mod_lt _ (by omega)
  simp only [isIsoTimestampShape, isoTimestamp_data]
  simp only [Bool.and_eq_true, beq_self_eq_true, and_true]
  refine ⟨⟨⟨⟨⟨⟨⟨?_, ?_⟩, ?_⟩, ?_⟩, ?_⟩, ?_⟩, ?_⟩, ?_⟩ <;>
    exact digitChar_isDigit _ (hmod _)

theorem isoTimestamp_inj (z1 z2 : Nat) (h1 : z1 ≤ 2932896) (h2 : z2 ≤ 2932896)
    (he : isoTimestamp z1 = isoTimestamp z2) : z1 = z2 := by
  have hd := congrArg String.data he
  rw [isoTimestamp_data, isoTimestamp_data] at hd
  simp only [List.cons.injEq, and_true, true_and] at hd
  have hy1 := civil_year_le z1 h1
  have hy2 := civil_year_le z2 h2
  have hb1 := civil_bounds z1
  have hb2 := civil_bounds z2
  have hmod : ∀ n : Nat, n % 10 < 10 := fun n => Nat.mod_lt _ (by omega)
  have y1 := digitChar_inj _ (hmod _) _ (hmod _) hd.1
  have y2 := digitChar_inj _ (hmod _) _ (hmod _) hd.2.1
  have y3 := digitChar_inj _ (hmod _) _ (hmod _) hd.2.2.1
  have y4 := digitChar_inj _ (hmod _) _ (hmod _) hd.2.2.2.1
  have m1 := digitChar_inj _ (hmod _) _ (hmod _) hd.2.2.2.2.1
  have m2 := digitChar_inj _ (hmod _) _ (hmod _) hd.2.2.2.2.2.1
  have d1 := digitChar_inj _ (hmod _) _ (hmod _) hd.2.2.2.2.2.2.1
  have d2 := digitChar_inj _ (hmod _) _ (hmod _) hd.2.2.2.2.2.2.2
  have hyy : (civilFromDays z1).1 = (civilFromDays z2).1 := by omega
  have hmm : (civilFromDays z1).2.1 = (civilFromDays z2).2.1 := by omega
  have hdd : (civilFromDays z1).2.2 = (civilFromDays z2).2.2 := by omega
  have := civil_roundtrip z1
  rw [hyy, hmm, hdd, civil_roundtrip z2] at this
  exact this.symm

theorem alGet_alUpsert_same {κ α : Type} [DecidableEq κ] (m : List (κ × α)) (k : κ)
    (dflt : α) (f : α → α) :
    alGet (alUpsert m k dflt f) k = some (f (alGetD m k dflt)) := by
  induction m with
  | nil => simp [alUpsert, alGet, alGetD]
  | cons p rest ih =>
    obtain ⟨k2, a⟩ := p
    by_cases h : k2 = k
    · subst h
      simp [alUpsert, alGet, alGetD]
    · simp [alUpsert, alGet, alGetD, h] at ih ⊢
      exact ih

theorem alGet_alUpsert_ne {κ α : Type} [DecidableEq κ] (m : List (κ × α)) (k k2 : κ)
    (dflt : α) (f : α → α) (hne : k2 ≠ k) :
    alGet (alUpsert m k dflt f) k2 = alGet m k2 := by
  induction m with
  | nil =>
    simp only [alUpsert, alGet]
    rw [if_neg (fun hh => hne hh.symm)]
  | cons p rest ih =>
    obtain ⟨k3, a⟩ := p
    by_cases h : k3 = k
    · subst h
      simp only [alUpsert, if_pos rfl, alGet]
      rw [if_neg (fun hh => hne hh.symm), if_neg (fun hh => hne hh.symm)]
    · simp only [alUpsert, if_neg h, alGet]
      by_cases h2 : k3 = k2
      · rw [if_pos h2, if_pos h2]
      · rw [if_neg h2, if_neg h2]
        exact ih

theorem alGetD_alUpsert_same {κ α : Type} [DecidableEq κ] (m : List (κ × α)) (k : κ)
    (dflt dflt2 : α) (f : α → α) :
    alGetD (alUpsert m k dflt f) k dflt2 = f (alGetD m k dflt) := by
  simp [alGetD, alGet_alUpsert_same]

theorem alGetD_alUpsert_ne {κ α : Type} [DecidableEq κ] (m : List (κ × α)) (k k2 : κ)
    (dflt dflt2 : α) (f : α → α) (hne : k2 ≠ k) :
    alGetD (alUpsert m k dflt f) k2 dflt2 = alGetD m k2 dflt2 := by
  simp [alGetD, alGet_alUpsert_ne _ _ _ _ _ hne]

theorem add_repository_metric_group (s : RepositoryMetric) (n : String) (c v : Int) :
    alGetD (s.add_repository_metric n c).repos_grouped_by_metric v [] =
      alGetD s.repos_grouped_by_metric v [] ++ (if c = v then [n] else []) := by
  by_cases h : c = v
  · subst h
    simp [RepositoryMetric.add_repository_metric, alGetD_alUpsert_same]
  · simp [RepositoryMetric.add_repository_metric,
      alGetD_alUpsert_ne _ _ _ _ _ _ (fun hh => h hh.symm), h]

theorem recordAll_cons (s : RepositoryMetric) (p : String × Int) (l : List (String × Int)) :
    recordAll s (p :: l) = recordAll (s.add_repository_metric p.1 p.2) l := rfl

theorem recordAll_name (s : RepositoryMetric) (l : List (String × Int)) :
    (recordAll s l).name = s.name := by
  induction l generalizing s with
  | nil => rfl
  | cons p t ih => rw [recordAll_cons, ih]; rfl

theorem recordAll_total (s : RepositoryMetric) (l : List (String × Int)) :
    (recordAll s l).total_metric_count =
      s.total_metric_count + (l.map (fun p => p.2)).sum := by
  induction l generalizing s with
  | nil => simp [recordAll]
  | cons p t ih =>
    rw [recordAll_cons, ih]
    simp [RepositoryMetric.add_repository_metric]
    ring

theorem recordAll_max (s : RepositoryMetric) (l : List (String × Int)) :
    (recordAll s l).max_metric_count =
      (l.map (fun p => p.2)).foldl max s.max_metric_count := by
  induction l generalizing s with
  | nil => rfl
  | cons p t ih =>
    rw [recordAll_cons, ih]
    rfl

theorem recordAll_group (s : RepositoryMetric) (l : List (String × Int)) (v : Int) :
    alGetD (recordAll s l).repos_grouped_by_metric v [] =
      alGetD s.repos_grouped_by_metric v [] ++
        (l.filter (fun p => p.2 == v)).map (fun p => p.1) := by
  induction l generalizing s with
  | nil => simp [recordAll]
  | cons p t ih =>
    rw [recordAll_cons, ih, add_repository_metric_group]
    by_cases h : p.2 = v
    · simp [List.filter_cons, h]
    · simp [List.filter_cons, h]

theorem foldl_max_init_le (l : List Int) (a : Int) : a ≤ l.foldl max a := by
  induction l generalizing a with
  | nil => exact Int.le_refl a
  | cons x t ih => exact le_trans (le_max_left a x) (ih (max a x))

theorem foldl_max_le_elem (l : List Int) (v : Int) (hv : v ∈ l) (a : Int) :
    v ≤ l.foldl max a := by
  induction l generalizing a with
  | nil => cases hv
  | cons x t ih =>
    rcases List.mem_cons.mp hv with h | h
    · subst h
      exact le_trans (le_max_right a v) (foldl_max_init_le t (max a v))
    · exact ih h (max a x)

theorem foldl_max_cases (l : List Int) (a : Int) :
    l.foldl max a = a ∨ l.foldl max a ∈ l := by
  induction l generalizing a with
  | nil => left; rfl
  | cons x t ih =>
    rcases ih (max a x) with h | h
    · rcases max_choice a x with h2 | h2
      · left; rw [List.foldl_cons, h, h2]
      · right; rw [List.foldl_cons, h, h2]; exact List.mem_cons_self x t
    · right; exact List.mem_cons_of_mem x h

theorem foldl_max_perm (l1 l2 : List Int) (h : l1.Perm l2) :
    ∀ a : Int, l1.foldl max a = l2.foldl max a := by
  induction h with
  | nil => intro a; rfl
  | cons x _ ih =>
    intro a
    simp only [List.foldl_cons]
    exact ih (max a x)
  | swap x y l =>
    intro a
    simp only [List.foldl_cons]
    have h2 : max (max a y) x = max (max a x) y := by omega
    rw [h2]
  | trans _ _ ih1 ih2 =>
    intro a
    rw [ih1 a, ih2 a]

theorem add_metric_name (s : RepositoryMetric) (n : String) (c : Int) :
    (s.add_repository_metric n c).name = s.name := rfl

theorem traffic_fold_split (entries : List TrafficEntry) (rn keyName : String) (a : Int)
    (w : List (Option String × (Int × List (String × Int)))) :
    entries.foldl (fun acc metric =>
      (acc.1 + alGetD metric.fields keyName 0,
       alUpsert acc.2 metric.timestamp (0, [])
         (fun e => (e.1 + alGetD metric.fields keyName 0,
                    e.2 ++ [(rn, alGetD metric.fields keyName 0)])))) (a, w) =
    (a + (entries.map (fun metric => alGetD metric.fields keyName 0)).sum,
     entries.foldl (fun w2 metric => alUpsert w2 metric.timestamp (0, [])
         (fun e => (e.1 + alGetD metric.fields keyName 0,
                    e.2 ++ [(rn, alGetD metric.fields keyName 0)]))) w) := by
  induction entries generalizing a w with
  | nil => simp
  | cons x t ih =>
    simp only [List.foldl_cons, List.map_cons, List.sum_cons]
    rw [ih]
    congr 1
    ring

theorem add_traffic_base (self : RepositoryTrafficMetric) (rn : String) (md : TrafficData) :
    (self.add_repository_traffic_metric rn md).base =
      self.base.add_repository_metric rn
        (trafficContribution self.metric_type self.base.name md) ∧
    (self.add_repository_traffic_metric rn md).metric_type = self.metric_type := by
  constructor
  · simp only [RepositoryTrafficMetric.add_repository_traffic_metric, traffic_fold_split]
    simp [trafficContribution]
  · rfl

theorem add_traffic_window (self : RepositoryTrafficMetric) (rn : String) (md : TrafficData) :
    (self.add_repository_traffic_metric rn md).total_metric_at_timestamps =
      (alGetD md self.metric_type []).foldl
        (fun w2 metric => alUpsert w2 metric.timestamp (0, [])
          (fun e => (e.1 + alGetD metric.fields self.base.name 0,
                     e.2 ++ [(rn, alGetD metric.fields self.base.name 0)])))
        self.total_metric_at_timestamps := by
  simp only [RepositoryTrafficMetric.add_repository_traffic_metric, traffic_fold_split]

theorem add_traffic_empty (self : RepositoryTrafficMetric) (rn : String) (md : TrafficData)
    (hmd : alGetD md self.metric_type [] = ([] : List TrafficEntry)) :
    self.add_repository_traffic_metric rn md =
      { self with base := self.base.add_repository_metric rn 0 } := by
  simp [RepositoryTrafficMetric.add_repository_traffic_metric, hmd]

theorem traffic_fold_base (l : List (String × TrafficData)) :
    ∀ t0 : RepositoryTrafficMetric,
    (l.foldl (fun t p => t.add_repository_traffic_metric p.1 p.2) t0).base =
      recordAll t0.base
        (l.map (fun p => (p.1, trafficContribution t0.metric_type t0.base.name p.2))) ∧
    (l.foldl (fun t p => t.add_repository_traffic_metric p.1 p.2) t0).metric_type =
      t0.metric_type := by
  induction l with
  | nil => intro t0; exact ⟨rfl, rfl⟩
  | cons p rest ih =>
    intro t0
    simp only [List.foldl_cons, List.map_cons, recordAll_cons]
    have hb := (add_traffic_base t0 p.1 p.2).1
    have hmt := (add_traffic_base t0 p.1 p.2).2
    have hrest := ih (t0.add_repository_traffic_metric p.1 p.2)
    rw [hrest.1, hrest.2, hb, hmt]
    exact ⟨by rw [add_metric_name], by rfl⟩

theorem fold_process_proj (l : List RepositoryFetchResult) :
    ∀ t : RepositoryMetricsTracker,
    (l.foldl (fun t2 r => process_repository t2 r.repository r.views_json r.clones_json) t).stargazers =
      recordAll t.stargazers
        (l.map (fun r => (r.repository.name, alGetD r.repository.counts t.stargazers.name 0))) ∧
    (l.foldl (fun t2 r => process_repository t2 r.repository r.views_json r.clones_json) t).watchers =
      recordAll t.watchers
        (l.map (fun r => (r.repository.name, alGetD r.repository.counts t.watchers.name 0))) ∧
    (l.foldl (fun t2 r => process_repository t2 r.repository r.views_json r.clones_json) t).forks =
      recordAll t.forks
        (l.map (fun r => (r.repository.name, alGetD r.repository.counts t.forks.name 0))) ∧
    (l.foldl (fun t2 r => process_repository t2 r.repository r.views_json r.clones_json) t).views =
      (l.map (fun r => (r.repository.name, r.views_json))).foldl
        (fun m p => m.add_repository_traffic_metric p.1 p.2) t.views ∧
    (l.foldl (fun t2 r => process_repository t2 r.repository r.views_json r.clones_json) t).unique_vistors =
      (l.map (fun r => (r.repository.name, r.views_json))).foldl
        (fun m p => m.add_repository_traffic_metric p.1 p.2) t.unique_vistors ∧
    (l.foldl (fun t2 r => process_repository t2 r.repository r.views_json r.clones_json) t).clones =
      (l.map (fun r => (r.repository.name, r.clones_json))).foldl
        (fun m p => m.add_repository_traffic_metric p.1 p.2) t.clones ∧
    (l.foldl (fun t2 r => process_repository t2 r.repository r.views_json r.clones_json) t).unique_cloners =
      (l.map (fun r => (r.repository.name, r.clones_json))).foldl
        (fun m p => m.add_repository_traffic_metric p.1 p.2) t.unique_cloners := by
  induction l with
  | nil => intro t; exact ⟨rfl, rfl, rfl, rfl, rfl, rfl, rfl⟩
  | cons r rest ih =>
    intro t
    simp only [List.foldl_cons, List.map_cons, recordAll_cons]
    have hrest := ih (process_repository t r.repository r.views_json r.clones_json)
    refine ⟨?_, ?_, ?_, ?_, ?_, ?_, ?_⟩
    · rw [hrest.1]; rfl
    · rw [hrest.2.1]; rfl
    · rw [hrest.2.2.1]; rfl
    · rw [hrest.2.2.2.1]; rfl
    · rw [hrest.2.2.2.2.1]; rfl
    · rw [hrest.2.2.2.2.2.1]; rfl
    · rw [hrest.2.2.2.2.2.2]; rfl

theorem run_repositories_normal (todayOrdinal : Nat) (l : List RepositoryFetchResult) :
    (run_repositories todayOrdinal l).stargazers =
      recordAll (RepositoryMetric.init "stargazers_count")
        (l.map (fun r => (r.repository.name, alGetD r.repository.counts "stargazers_count" 0))) ∧
    (run_repositories todayOrdinal l).watchers =
      recordAll (RepositoryMetric.init "watchers_count")
        (l.map (fun r => (r.repository.name, alGetD r.repository.counts "watchers_count" 0))) ∧
    (run_repositories todayOrdinal l).forks =
      recordAll (RepositoryMetric.init "forks_count")
        (l.map (fun r => (r.repository.name, alGetD r.repository.counts "forks_count" 0))) ∧
    (run_repositories todayOrdinal l).views.base =
      recordAll (RepositoryMetric.init "count")
        (l.map (fun r => (r.repository.name, trafficContribution "views" "count" r.views_json))) ∧
    (run_repositories todayOrdinal l).unique_vistors.base =
      recordAll (RepositoryMetric.init "uniques")
        (l.map (fun r => (r.repository.name, trafficContribution "views" "uniques" r.views_json))) ∧
    (run_repositories todayOrdinal l).clones.base =
      recordAll (RepositoryMetric.init "count")
        (l.map (fun r => (r.repository.name, trafficContribution "clones" "count" r.clones_json))) ∧
    (run_repositories todayOrdinal l).unique_cloners.base =
      recordAll (RepositoryMetric.init "uniques")
        (l.map (fun r => (r.repository.name, trafficContribution "clones" "uniques" r.clones_json))) := by
  have hp := fold_process_proj l (RepositoryMetricsTracker.init todayOrdinal)
  refine ⟨hp.1, hp.2.1, hp.2.2.1, ?_, ?_, ?_, ?_⟩
  · rw [show run_repositories todayOrdinal l =
        l.foldl (fun t2 r => process_repository t2 r.repository r.views_json r.clones_json)
          (RepositoryMetricsTracker.init todayOrdinal) from rfl, hp.2.2.2.1,
        (traffic_fold_base _ _).1]
    simp only [List.map_map]
    rfl
  · rw [show run_repositories todayOrdinal l =
        l.foldl (fun t2 r => process_repository t2 r.repository r.views_json r.clones_json)
          (RepositoryMetricsTracker.init todayOrdinal) from rfl, hp.2.2.2.2.1,
        (traffic_fold_base _ _).1]
    simp only [List.map_map]
    rfl
  · rw [show run_repositories todayOrdinal l =
        l.foldl (fun t2 r => process_repository t2 r.repository r.views_json r.clones_json)
          (RepositoryMetricsTracker.init todayOrdinal) from rfl, hp.2.2.2.2.2.1,
        (traffic_fold_base _ _).1]
    simp only [List.map_map]
    rfl
  · rw [show run_repositories todayOrdinal l =
        l.foldl (fun t2 r => process_repository t2 r.repository r.views_json r.clones_json)
          (RepositoryMetricsTracker.init todayOrdinal) from rfl, hp.2.2.2.2.2.2,
        (traffic_fold_base _ _).1]
    simp only [List.map_map]
    rfl

theorem recordAll_perm_tm (s : RepositoryMetric) (m1 m2 : List (String × Int))
    (h : m1.Perm m2) :
    (recordAll s m1).total_metric_count = (recordAll s m2).total_metric_count ∧
    (recordAll s m1).max_metric_count = (recordAll s m2).max_metric_count := by
  constructor
  · rw [recordAll_total, recordAll_total, List.Perm.sum_eq (h.map _)]
  · rw [recordAll_max, recordAll_max, foldl_max_perm _ _ (h.map _) _]

/-- C1: for every finite sequence of `add_repository_metric` calls with
non-negative values starting from a fresh accumulator, the final
`total_metric_count` is the sum of the recorded values, `max_metric_count`
is the maximum recorded value (0 for the empty sequence), and
`get_top_repositories` returns exactly the names whose recorded value
equals `max_metric_count`, in call order. -/
theorem C1_record_sequence (nm : String) (l : List (String × Int))
    (hnn : ∀ p ∈ l, 0 ≤ p.2) :
    (recordAll (RepositoryMetric.init nm) l).total_metric_count =
      (l.map (fun p => p.2)).sum ∧
    (∀ p ∈ l, p.2 ≤ (recordAll (RepositoryMetric.init nm) l).max_metric_count) ∧
    (l = [] → (recordAll (RepositoryMetric.init nm) l).max_metric_count = 0) ∧
    (l ≠ [] →
      (recordAll (RepositoryMetric.init nm) l).max_metric_count ∈ l.map (fun p => p.2)) ∧
    (recordAll (RepositoryMetric.init nm) l).get_top_repositories =
      (l.filter (fun p =>
        p.2 == (recordAll (RepositoryMetric.init nm) l).max_metric_count)).map
        (fun p => p.1) := by
  have hmax := recordAll_max (RepositoryMetric.init nm) l
  refine ⟨?_, ?_, ?_, ?_, ?_⟩
  · rw [recordAll_total]
    simp [RepositoryMetric.init]
  · intro p hp
    rw [hmax]
    exact foldl_max_le_elem _ _ (List.mem_map_of_mem _ hp) _
  · intro h
    subst h
    rfl
  · intro hne
    rw [hmax]
    rcases foldl_max_cases (l.map fun p => p.2)
        ((RepositoryMetric.init nm).max_metric_count) with h | h
    · rw [h]
      have hex : ∃ p, p ∈ l := by
        cases l with
        | nil => exact absurd rfl hne
        | cons x t => exact ⟨x, List.mem_cons_self x t⟩
      obtain ⟨p, hp⟩ := hex
      have h1 : 0 ≤ p.2 := hnn p hp
      have h2 := foldl_max_le_elem (l.map fun p => p.2) p.2
        (List.mem_map_of_mem _ hp) ((RepositoryMetric.init nm).max_metric_count)
      rw [h] at h2
      have h0 : (RepositoryMetric.init nm).max_metric_count = (0 : Int) := rfl
      rw [h0]
      have hz : p.2 = 0 := le_antisymm (h0 ▸ h2) h1
      rw [← hz]
      exact List.mem_map_of_mem _ hp
    · exact h
  · simp only [RepositoryMetric.get_top_repositories]
    rw [recordAll_group]
    have : alGetD (RepositoryMetric.init nm).repos_grouped_by_metric
        (recordAll (RepositoryMetric.init nm) l).max_metric_count [] = [] := rfl
    rw [this, List.nil_append]

/-- C1 witness: a concrete four-call sequence with non-negative values; the
two repositories tied at the maximum value 5 are returned in call order. -/
theorem C1_record_sequence_witness :
    (∀ p ∈ ([("alpha", 2), ("beta", 5), ("gamma", 5), ("delta", 0)] : List (String × Int)),
      0 ≤ p.2) ∧
    (recordAll (RepositoryMetric.init "stargazers_count")
        [("alpha", 2), ("beta", 5), ("gamma", 5), ("delta", 0)]).get_top_repositories =
      ["beta", "gamma"] := by
  constructor
  · decide
  · have h := C1_record_sequence "stargazers_count"
      [("alpha", 2), ("beta", 5), ("gamma", 5), ("delta", 0)] (by decide)
    rw [h.2.2.2.2]
    decide

/-- C2 counterexample: `add_repository_metric` with value −1 returns
normally (the source performs no validation and raises no error) and
mutates the state: the total becomes −1 and the name is grouped under −1,
contradicting the claimed `InvalidInputError` with unchanged state. -/
theorem C2_counterexample :
    ((RepositoryMetric.init "stargazers_count").add_repository_metric "repo-a" (-1)).total_metric_count
      = -1 ∧
    ((RepositoryMetric.init "stargazers_count").add_repository_metric "repo-a" (-1)).repos_grouped_by_metric
      = [(-1, ["repo-a"])] := by
  decide

/-- C2 amended: recording a negative value does not fail; it adds the value
to the total (decreasing it), leaves `max_metric_count` unchanged whenever
the current maximum is non-negative (always true for reachable states),
appends the name to the group of the negative value, and leaves
`get_top_repositories` unchanged. -/
theorem C2_negative_record (s : RepositoryMetric) (n : String) (v : Int)
    (hv : v < 0) (hmax : 0 ≤ s.max_metric_count) :
    (s.add_repository_metric n v).total_metric_count = s.total_metric_count + v ∧
    (s.add_repository_metric n v).max_metric_count = s.max_metric_count ∧
    alGetD (s.add_repository_metric n v).repos_grouped_by_metric v [] =
      alGetD s.repos_grouped_by_metric v [] ++ [n] ∧
    (s.add_repository_metric n v).get_top_repositories = s.get_top_repositories := by
  have hmaxeq : (s.add_repository_metric n v).max_metric_count = s.max_metric_count := by
    simp only [RepositoryMetric.add_repository_metric]
    exact max_eq_left (by omega)
  refine ⟨rfl, hmaxeq, ?_, ?_⟩
  · rw [add_repository_metric_group, if_pos rfl]
  · simp only [RepositoryMetric.get_top_repositories]
    rw [hmaxeq, add_repository_metric_group, if_neg (by omega), List.append_nil]

/-- C2 amended witness: recording −1 on a fresh accumulator leaves the
maximum at 0 and the top list empty while the total drops to −1. -/
theorem C2_negative_record_witness :
    ((-1 : Int) < 0 ∧ (0 : Int) ≤ (RepositoryMetric.init "stargazers_count").max_metric_count) ∧
    ((RepositoryMetric.init "stargazers_count").add_repository_metric "repo-a" (-1)).max_metric_count
      = (RepositoryMetric.init "stargazers_count").max_metric_count := by
  refine ⟨⟨by decide, by decide⟩, ?_⟩
  exact (C2_negative_record (RepositoryMetric.init "stargazers_count") "repo-a" (-1)
    (by decide) (by decide)).2.1

theorem traffic_fold_empty (l : List (String × TrafficData))
    (t0 : RepositoryTrafficMetric)
    (hempty : ∀ p ∈ l, alGetD p.2 t0.metric_type [] = ([] : List TrafficEntry)) :
    (l.foldl (fun t p => t.add_repository_traffic_metric p.1 p.2) t0).base =
      recordAll t0.base (l.map (fun p => (p.1, (0 : Int)))) := by
  rw [(traffic_fold_base l t0).1]
  congr 1
  apply List.map_congr_left
  intro p hp
  have h := hempty p hp
  simp [trafficContribution, h]

theorem foldl_max_zeros (vs : List Int) (hz : ∀ v ∈ vs, v = 0) :
    vs.foldl max 0 = 0 := by
  induction vs with
  | nil => rfl
  | cons x t ih =>
    have hx := hz x (List.mem_cons_self x t)
    subst hx
    simp only [List.foldl_cons, max_self]
    exact ih (fun v hv => hz v (List.mem_cons_of_mem _ hv))

/-- C9: a traffic record call whose payload has no entries for the metric
kind still performs a base `add_repository_metric` call with value 0; as a
consequence, when every repository records such an empty payload on a fresh
traffic accumulator, `get_top_repositories` of the base returns all the
repository names in record order rather than the empty list. -/
theorem C9_zero_traffic (todayOrdinal : Nat) (metric_type nm : String)
    (l : List (String × TrafficData)) (hne : l ≠ [])
    (hempty : ∀ p ∈ l, alGetD p.2 metric_type [] = ([] : List TrafficEntry)) :
    (∀ (t : RepositoryTrafficMetric) (rn : String) (md : TrafficData),
      alGetD md t.metric_type [] = ([] : List TrafficEntry) →
      t.add_repository_traffic_metric rn md =
        { t with base := t.base.add_repository_metric rn 0 }) ∧
    (l.foldl (fun t p => t.add_repository_traffic_metric p.1 p.2)
        (RepositoryTrafficMetric.init metric_type nm todayOrdinal)).base.get_top_repositories =
      l.map (fun p => p.1) := by
  constructor
  · exact add_traffic_empty
  · have hb := traffic_fold_empty l (RepositoryTrafficMetric.init metric_type nm todayOrdinal)
      hempty
    rw [hb]
    simp only [RepositoryMetric.get_top_repositories]
    have hmax : (recordAll ((RepositoryTrafficMetric.init metric_type nm todayOrdinal).base)
        (l.map (fun p => (p.1, (0 : Int))))).max_metric_count = 0 := by
      rw [recordAll_max]
      have h0 : ((RepositoryTrafficMetric.init metric_type nm todayOrdinal).base).max_metric_count
          = (0 : Int) := rfl
      rw [h0]
      apply foldl_max_zeros
      intro v hv
      simp only [List.map_map, List.mem_map] at hv
      obtain ⟨p, _, hp⟩ := hv
      exact hp.symm
    rw [hmax, recordAll_group]
    have hinit : alGetD ((RepositoryTrafficMetric.init metric_type nm todayOrdinal).base).repos_grouped_by_metric
        (0 : Int) [] = [] := rfl
    rw [hinit, List.nil_append]
    have : ∀ xs : List (String × TrafficData),
        (((xs.map (fun p => (p.1, (0 : Int)))).filter (fun p => p.2 == 0)).map (fun p => p.1))
          = xs.map (fun p => p.1) := by
      intro xs
      induction xs with
      | nil => rfl
      | cons x t ih => simp [List.filter_cons, ih]
    exact this l

/-- C9 witness: two repositories, one with a payload missing the traffic
kind and one with an empty entry list; the top list is both names in
order. -/
theorem C9_zero_traffic_witness :
    (([("r1", ([] : TrafficData)), ("r2", [("views", [])])] : List (String × TrafficData)) ≠ [] ∧
      (∀ p ∈ ([("r1", ([] : TrafficData)), ("r2", [("views", [])])] : List (String × TrafficData)),
        alGetD p.2 "views" [] = ([] : List TrafficEntry))) ∧
    ([("r1", ([] : TrafficData)), ("r2", [("views", [])])].foldl
        (fun t p => t.add_repository_traffic_metric p.1 p.2)
        (RepositoryTrafficMetric.init "views" "count" 20139)).base.get_top_repositories =
      ["r1", "r2"] := by
  refine ⟨⟨by decide, by decide⟩, ?_⟩
  have h := C9_zero_traffic 20139 "views" "count"
    [("r1", ([] : TrafficData)), ("r2", [("views", [])])] (by decide) (by decide)
  rw [h.2]
  decide

/-- C4: `add_repository_traffic_metric` reads each entry of the payload at
the traffic kind, extracts the value at the metric key (0 when absent) and
the timestamp, updates the window entry for that timestamp (inserting it
when absent) by adding the value and appending the `(name, value)` pair,
and after all entries calls the base `add_repository_metric` exactly once
with the per-repository sum over the whole window; on the concrete payload
of the specification the window entry becomes `(5, [("repo-a", 5)])` and
the base total becomes 5. -/
theorem C4_traffic_record (self : RepositoryTrafficMetric) (repository_name : String)
    (metric_data : TrafficData) :
    ((self.add_repository_traffic_metric repository_name metric_data).base =
      self.base.add_repository_metric repository_name
        (trafficContribution self.metric_type self.base.name metric_data) ∧
    (self.add_repository_traffic_metric repository_name metric_data).total_metric_at_timestamps =
      (alGetD metric_data self.metric_type []).foldl
        (fun w2 metric => alUpsert w2 metric.timestamp (0, [])
          (fun e => (e.1 + alGetD metric.fields self.base.name 0,
                     e.2 ++ [(repository_name, alGetD metric.fields self.base.name 0)])))
        self.total_metric_at_timestamps) ∧
    (alGetD ((RepositoryTrafficMetric.init "views" "count" 20139).add_repository_traffic_metric
          "repo-a" [("views", [{ timestamp := some "2025-02-10T00:00:00Z",
                                 fields := [("count", 5), ("uniques", 3)] }])]).total_metric_at_timestamps
        (some "2025-02-10T00:00:00Z") (0, []) = (5, [("repo-a", 5)]) ∧
      ((RepositoryTrafficMetric.init "views" "count" 20139).add_repository_traffic_metric
          "repo-a" [("views", [{ timestamp := some "2025-02-10T00:00:00Z",
                                 fields := [("count", 5), ("uniques", 3)] }])]).base.total_metric_count
        = 5) := by
  refine ⟨⟨(add_traffic_base self repository_name metric_data).1,
    add_traffic_window self repository_name metric_data⟩, by decide, by decide⟩

/-- C5 counterexample: two repository units with traffic on the same date,
processed in the two orders of a permutation. The totals agree, but the
window entry list of the shared date differs — an order-dependent component
other than the `grouped_by_value` lists, refuting the claim that only the
order of names within a `grouped_by_value` list depends on processing
order. -/
theorem C5_counterexample :
    ([{ repository := { name := "repo-a", owner_login := "woodsj1206",
                        counts := [("stargazers_count", 1)] },
        views_json := [("views", [{ timestamp := some "2025-02-10T00:00:00Z",
                                    fields := [("count", 1), ("uniques", 1)] }])],
        clones_json := [] },
      { repository := { name := "repo-b", owner_login := "woodsj1206",
                        counts := [("stargazers_count", 2)] },
        views_json := [("views", [{ timestamp := some "2025-02-10T00:00:00Z",
                                    fields := [("count", 2), ("uniques", 1)] }])],
        clones_json := [] }] : List RepositoryFetchResult).Perm
      [{ repository := { name := "repo-b", owner_login := "woodsj1206",
                         counts := [("stargazers_count", 2)] },
         views_json := [("views", [{ timestamp := some "2025-02-10T00:00:00Z",
                                     fields := [("count", 2), ("uniques", 1)] }])],
         clones_json := [] },
       { repository := { name := "repo-a", owner_login := "woodsj1206",
                         counts := [("stargazers_count", 1)] },
         views_json := [("views", [{ timestamp := some "2025-02-10T00:00:00Z",
                                     fields := [("count", 1), ("uniques", 1)] }])],
         clones_json := [] }] ∧
    (alGetD (run_repositories 20139
        [{ repository := { name := "repo-a", owner_login := "woodsj1206",
                           counts := [("stargazers_count", 1)] },
           views_json := [("views", [{ timestamp := some "2025-02-10T00:00:00Z",
                                       fields := [("count", 1), ("uniques", 1)] }])],
           clones_json := [] },
         { repository := { name := "repo-b", owner_login := "woodsj1206",
                           counts := [("stargazers_count", 2)] },
           views_json := [("views", [{ timestamp := some "2025-02-10T00:00:00Z",
                                       fields := [("count", 2), ("uniques", 1)] }])],
           clones_json := [] }]).views.total_metric_at_timestamps
        (some "2025-02-10T00:00:00Z") (0, [])).2 = [("repo-a", 1), ("repo-b", 2)] ∧
    (alGetD (run_repositories 20139
        [{ repository := { name := "repo-b", owner_login := "woodsj1206",
                           counts := [("stargazers_count", 2)] },
           views_json := [("views", [{ timestamp := some "2025-02-10T00:00:00Z",
                                       fields := [("count", 2), ("uniques", 1)] }])],
           clones_json := [] },
         { repository := { name := "repo-a", owner_login := "woodsj1206",
                           counts := [("stargazers_count", 1)] },
           views_json := [("views", [{ timestamp := some "2025-02-10T00:00:00Z",
                                       fields := [("count", 1), ("uniques", 1)] }])],
           clones_json := [] }]).views.total_metric_at_timestamps
        (some "2025-02-10T00:00:00Z") (0, [])).2 = [("repo-b", 2), ("repo-a", 1)] := by
  refine ⟨List.Perm.swap _ _ _, by decide, by decide⟩

/-- C5 amended: for any two completion orders of the same repository units
(a permutation), the final `total_metric_count` and `max_metric_count` of
all seven metrics agree, and each total equals the sum of the per-repository
contributions (no contribution double-counted or dropped); processing order
affects only the order of names within `grouped_by_value` lists and the
order of entries within each window date's entry list. -/
theorem C5_perm_invariance (todayOrdinal : Nat)
    (l1 l2 : List RepositoryFetchResult) (hperm : l1.Perm l2) :
    ((run_repositories todayOrdinal l1).stargazers.total_metric_count =
        (run_repositories todayOrdinal l2).stargazers.total_metric_count ∧
      (run_repositories todayOrdinal l1).stargazers.max_metric_count =
        (run_repositories todayOrdinal l2).stargazers.max_metric_count) ∧
    ((run_repositories todayOrdinal l1).watchers.total_metric_count =
        (run_repositories todayOrdinal l2).watchers.total_metric_count ∧
      (run_repositories todayOrdinal l1).watchers.max_metric_count =
        (run_repositories todayOrdinal l2).watchers.max_metric_count) ∧
    ((run_repositories todayOrdinal l1).forks.total_metric_count =
        (run_repositories todayOrdinal l2).forks.total_metric_count ∧
      (run_repositories todayOrdinal l1).forks.max_metric_count =
        (run_repositories todayOrdinal l2).forks.max_metric_count) ∧
    ((run_repositories todayOrdinal l1).views.base.total_metric_count =
        (run_repositories todayOrdinal l2).views.base.total_metric_count ∧
      (run_repositories todayOrdinal l1).views.base.max_metric_count =
        (run_repositories todayOrdinal l2).views.base.max_metric_count) ∧
    ((run_repositories todayOrdinal l1).unique_vistors.base.total_metric_count =
        (run_repositories todayOrdinal l2).unique_vistors.base.total_metric_count ∧
      (run_repositories todayOrdinal l1).unique_vistors.base.max_metric_count =
        (run_repositories todayOrdinal l2).unique_vistors.base.max_metric_count) ∧
    ((run_repositories todayOrdinal l1).clones.base.total_metric_count =
        (run_repositories todayOrdinal l2).clones.base.total_metric_count ∧
      (run_repositories todayOrdinal l1).clones.base.max_metric_count =
        (run_repositories todayOrdinal l2).clones.base.max_metric_count) ∧
    ((run_repositories todayOrdinal l1).unique_cloners.base.total_metric_count =
        (run_repositories todayOrdinal l2).unique_cloners.base.total_metric_count ∧
      (run_repositories todayOrdinal l1).unique_cloners.base.max_metric_count =
        (run_repositories todayOrdinal l2).unique_cloners.base.max_metric_count) ∧
    (run_repositories todayOrdinal l1).stargazers.total_metric_count =
      (l1.map (fun r => alGetD r.repository.counts "stargazers_count" 0)).sum ∧
    (run_repositories todayOrdinal l1).watchers.total_metric_count =
      (l1.map (fun r => alGetD r.repository.counts "watchers_count" 0)).sum ∧
    (run_repositories todayOrdinal l1).forks.total_metric_count =
      (l1.map (fun r => alGetD r.repository.counts "forks_count" 0)).sum ∧
    (run_repositories todayOrdinal l1).views.base.total_metric_count =
      (l1.map (fun r => trafficContribution "views" "count" r.views_json)).sum ∧
    (run_repositories todayOrdinal l1).unique_vistors.base.total_metric_count =
      (l1.map (fun r => trafficContribution "views" "uniques" r.views_json)).sum ∧
    (run_repositories todayOrdinal l1).clones.base.total_metric_count =
      (l1.map (fun r => trafficContribution "clones" "count" r.clones_json)).sum ∧
    (run_repositories todayOrdinal l1).unique_cloners.base.total_metric_count =
      (l1.map (fun r => trafficContribution "clones" "uniques" r.clones_json)).sum := by
  have n1 := run_repositories_normal todayOrdinal l1
  have n2 := run_repositories_normal todayOrdinal l2
  refine ⟨?_, ?_, ?_, ?_, ?_, ?_, ?_, ?_, ?_, ?_, ?_, ?_, ?_, ?_⟩
  · rw [n1.1, n2.1]
    exact recordAll_perm_tm _ _ _ (hperm.map _)
  · rw [n1.2.1, n2.2.1]
    exact recordAll_perm_tm _ _ _ (hperm.map _)
  · rw [n1.2.2.1, n2.2.2.1]
    exact recordAll_perm_tm _ _ _ (hperm.map _)
  · rw [n1.2.2.2.1, n2.2.2.2.1]
    exact recordAll_perm_tm _ _ _ (hperm.map _)
  · rw [n1.2.2.2.2.1, n2.2.2.2.2.1]
    exact recordAll_perm_tm _ _ _ (hperm.map _)
  · rw [n1.2.2.2.2.2.1, n2.2.2.2.2.2.1]
    exact recordAll_perm_tm _ _ _ (hperm.map _)
  · rw [n1.2.2.2.2.2.2, n2.2.2.2.2.2.2]
    exact recordAll_perm_tm _ _ _ (hperm.map _)
  · rw [n1.1, recordAll_total]
    simp only [List.map_map, RepositoryMetric.init, zero_add]
    exact congrArg List.sum (List.map_congr_left (fun r hr => rfl))
  · rw [n1.2.1, recordAll_total]
    simp only [List.map_map, RepositoryMetric.init, zero_add]
    exact congrArg List.sum (List.map_congr_left (fun r hr => rfl))
  · rw [n1.2.2.1, recordAll_total]
    simp only [List.map_map, RepositoryMetric.init, zero_add]
    exact congrArg List.sum (List.map_congr_left (fun r hr => rfl))
  · rw [n1.2.2.2.1, recordAll_total]
    simp only [List.map_map, RepositoryMetric.init, zero_add]
    exact congrArg List.sum (List.map_congr_left (fun r hr => rfl))
  · rw [n1.2.2.2.2.1, recordAll_total]
    simp only [List.map_map, RepositoryMetric.init, zero_add]
    exact congrArg List.sum (List.map_congr_left (fun r hr => rfl))
  · rw [n1.2.2.2.2.2.1, recordAll_total]
    simp only [List.map_map, RepositoryMetric.init, zero_add]
    exact congrArg List.sum (List.map_congr_left (fun r hr => rfl))
  · rw [n1.2.2.2.2.2.2, recordAll_total]
    simp only [List.map_map, RepositoryMetric.init, zero_add]
    exact congrArg List.sum (List.map_congr_left (fun r hr => rfl))

/-- C5 witness: the two-unit permutation of the counterexample input; the
stargazers total is 3 in both orders. -/
theorem C5_perm_invariance_witness :
    ([{ repository := { name := "repo-a", owner_login := "woodsj1206",
                        counts := [("stargazers_count", 1)] },
        views_json := [("views", [{ timestamp := some "2025-02-10T00:00:00Z",
                                    fields := [("count", 1), ("uniques", 1)] }])],
        clones_json := [] },
      { repository := { name := "repo-b", owner_login := "woodsj1206",
                        counts := [("stargazers_count", 2)] },
        views_json := [("views", [{ timestamp := some "2025-02-10T00:00:00Z",
                                    fields := [("count", 2), ("uniques", 1)] }])],
        clones_json := [] }] : List RepositoryFetchResult).Perm
      [{ repository := { name := "repo-b", owner_login := "woodsj1206",
                         counts := [("stargazers_count", 2)] },
         views_json := [("views", [{ timestamp := some "2025-02-10T00:00:00Z",
                                     fields := [("count", 2), ("uniques", 1)] }])],
         clones_json := [] },
       { repository := { name := "repo-a", owner_login := "woodsj1206",
                         counts := [("stargazers_count", 1)] },
         views_json := [("views", [{ timestamp := some "2025-02-10T00:00:00Z",
                                     fields := [("count", 1), ("uniques", 1)] }])],
         clones_json := [] }] ∧
    (run_repositories 20139
        [{ repository := { name := "repo-a", owner_login := "woodsj1206",
                           counts := [("stargazers_count", 1)] },
           views_json := [("views", [{ timestamp := some "2025-02-10T00:00:00Z",
                                       fields := [("count", 1), ("uniques", 1)] }])],
           clones_json := [] },
         { repository := { name := "repo-b", owner_login := "woodsj1206",
                           counts := [("stargazers_count", 2)] },
           views_json := [("views", [{ timestamp := some "2025-02-10T00:00:00Z",
                                       fields := [("count", 2), ("uniques", 1)] }])],
           clones_json := [] }]).stargazers.total_metric_count =
      (run_repositories 20139
        [{ repository := { name := "repo-b", owner_login := "woodsj1206",
                           counts := [("stargazers_count", 2)] },
           views_json := [("views", [{ timestamp := some "2025-02-10T00:00:00Z",
                                       fields := [("count", 2), ("uniques", 1)] }])],
           clones_json := [] },
         { repository := { name := "repo-a", owner_login := "woodsj1206",
                           counts := [("stargazers_count", 1)] },
           views_json := [("views", [{ timestamp := some "2025-02-10T00:00:00Z",
                                       fields := [("count", 1), ("uniques", 1)] }])],
           clones_json := [] }]).stargazers.total_metric_count := by
  refine ⟨List.Perm.swap _ _ _, ?_⟩
  exact (C5_perm_invariance 20139 _ _ (List.Perm.swap _ _ _)).1.1

theorem rate_events_no_attempt (now rem reset : Int) :
    (handle_rate_limit now rem reset).filter isAttemptEvent = [] := by
  unfold handle_rate_limit
  split_ifs <;> rfl

theorem rate_events_no_backoff (now rem reset : Int) :
    backoffSeconds (handle_rate_limit now rem reset) = [] := by
  unfold handle_rate_limit
  split_ifs <;> rfl

theorem get_response_aux_zero (retries delay bf : Nat) (oracle : Nat → AttemptOutcome)
    (nowAt : Nat → Int) (i : Nat) :
    get_response_aux retries delay bf oracle nowAt i 0 = (none, []) := rfl

theorem isSuccess200_iff (o : AttemptOutcome) :
    isSuccess200 o = true ↔ ∃ r, o = AttemptOutcome.ok r ∧ r.status = 200 := by
  cases o with
  | exn => simp [isSuccess200]
  | ok r => simp [isSuccess200]

theorem aux_succ_step (retries delay bf : Nat) (oracle : Nat → AttemptOutcome)
    (nowAt : Nat → Int) (i n : Nat) (r : HttpResponse)
    (h : oracle i = AttemptOutcome.ok r) (hst : r.status = 200) :
    get_response_aux retries delay bf oracle nowAt i (n + 1) =
      (some r, ApiEvent.attempt i :: handle_rate_limit (nowAt i) r.remaining r.reset) := by
  simp [get_response_aux, h, hst]

theorem aux_fail_step (retries delay bf : Nat) (oracle : Nat → AttemptOutcome)
    (nowAt : Nat → Int) (i n : Nat) (hfail : isSuccess200 (oracle i) = false) :
    (get_response_aux retries delay bf oracle nowAt i (n + 1)).1 =
      (get_response_aux retries delay bf oracle nowAt (i + 1) n).1 ∧
    (get_response_aux retries delay bf oracle nowAt i (n + 1)).2.filter isAttemptEvent =
      ApiEvent.attempt i ::
        (get_response_aux retries delay bf oracle nowAt (i + 1) n).2.filter isAttemptEvent ∧
    backoffSeconds (get_response_aux retries delay bf oracle nowAt i (n + 1)).2 =
      (if i < retries then [delay * bf ^ (i + 1)] else []) ++
        backoffSeconds (get_response_aux retries delay bf oracle nowAt (i + 1) n).2 := by
  cases horacle : oracle i with
  | exn =>
    by_cases hig : i < retries
    · refine ⟨by simp [get_response_aux, horacle, hig], ?_, ?_⟩
      · simp [get_response_aux, horacle, hig, List.filter_cons, List.filter_append, isAttemptEvent]
      · simp [get_response_aux, horacle, hig, backoffSeconds, List.filterMap_cons,
          List.filterMap_append]
    · refine ⟨by simp [get_response_aux, horacle, hig], ?_, ?_⟩
      · simp [get_response_aux, horacle, hig, List.filter_cons, List.filter_append, isAttemptEvent]
      · simp [get_response_aux, horacle, hig, backoffSeconds, List.filterMap_cons,
          List.filterMap_append]
  | ok r =>
    have hst : ¬ r.status = 200 := by
      intro hc
      rw [horacle] at hfail
      simp [isSuccess200, hc] at hfail
    by_cases hig : i < retries
    · refine ⟨by simp [get_response_aux, horacle, hst, hig], ?_, ?_⟩
      · simp [get_response_aux, horacle, hst, hig, List.filter_cons, List.filter_append,
          isAttemptEvent, rate_events_no_attempt]
      · have hnb := rate_events_no_backoff (nowAt i) r.remaining r.reset
        simp only [backoffSeconds] at hnb ⊢
        simp [get_response_aux, horacle, hst, hig, List.filterMap_cons, List.filterMap_append, hnb]
    · refine ⟨by simp [get_response_aux, horacle, hst, hig], ?_, ?_⟩
      · simp [get_response_aux, horacle, hst, hig, List.filter_cons, List.filter_append,
          isAttemptEvent, rate_events_no_attempt]
      · have hnb := rate_events_no_backoff (nowAt i) r.remaining r.reset
        simp only [backoffSeconds] at hnb ⊢
        simp [get_response_aux, horacle, hst, hig, List.filterMap_cons, List.filterMap_append, hnb]

theorem get_response_aux_spec (retries delay bf : Nat) (oracle : Nat → AttemptOutcome)
    (nowAt : Nat → Int) :
    ∀ n i, i + n = 1 + retries →
    (1 ≤ n →
      1 ≤ ((get_response_aux retries delay bf oracle nowAt i n).2.filter isAttemptEvent).length) ∧
    ((get_response_aux retries delay bf oracle nowAt i n).2.filter isAttemptEvent).length ≤ n ∧
    ((∀ k, k < n → isSuccess200 (oracle (i + k)) = false) →
      (get_response_aux retries delay bf oracle nowAt i n).1 = none ∧
      ((get_response_aux retries delay bf oracle nowAt i n).2.filter isAttemptEvent).length = n) ∧
    backoffSeconds (get_response_aux retries delay bf oracle nowAt i n).2 =
      (List.range
          (((get_response_aux retries delay bf oracle nowAt i n).2.filter isAttemptEvent).length - 1)).map
        (fun k => delay * bf ^ (i + k + 1)) := by
  intro n
  induction n with
  | zero =>
    intro i hi
    rw [get_response_aux_zero]
    refine ⟨by omega, by simp, ?_, by simp [backoffSeconds]⟩
    intro _
    exact ⟨rfl, by simp⟩
  | succ n ih =>
    intro i hi
    by_cases hs : isSuccess200 (oracle i) = true
    · obtain ⟨r, hor, hst⟩ := (isSuccess200_iff _).mp hs
      rw [aux_succ_step retries delay bf oracle nowAt i n r hor hst]
      have hfa : ((some r,
          ApiEvent.attempt i :: handle_rate_limit (nowAt i) r.remaining r.reset).2.filter
            isAttemptEvent) = [ApiEvent.attempt i] := by
        simp [List.filter_cons, isAttemptEvent, rate_events_no_attempt]
      refine ⟨fun _ => by rw [hfa]; simp, by rw [hfa]; simp, ?_, ?_⟩
      · intro hf
        exfalso
        have := hf 0 (by omega)
        rw [show i + 0 = i from by omega] at this
        rw [this] at hs
        cases hs
      · have hnb := rate_events_no_backoff (nowAt i) r.remaining r.reset
        rw [hfa]
        simp only [backoffSeconds, List.filterMap_cons] at hnb ⊢
        simp [hnb]
    · have hs2 : isSuccess200 (oracle i) = false := by
        cases h2 : isSuccess200 (oracle i) with
        | true => exact absurd h2 hs
        | false => rfl
      have hstep := aux_fail_step retries delay bf oracle nowAt i n hs2
      have hrec := ih (i + 1) (by omega)
      refine ⟨?_, ?_, ?_, ?_⟩
      · intro _
        rw [hstep.2.1]
        simp
      · rw [hstep.2.1]
        simp only [List.length_cons]
        have := hrec.2.1
        omega
      · intro hf
        have hf2 : ∀ k, k < n → isSuccess200 (oracle (i + 1 + k)) = false := by
          intro k hk
          have := hf (k + 1) (by omega)
          rw [show i + (k + 1) = i + 1 + k from by omega] at this
          exact this
        have hres := hrec.2.2.1 hf2
        refine ⟨hstep.1.trans hres.1, ?_⟩
        rw [hstep.2.1]
        simp only [List.length_cons]
        rw [hres.2]
      · rw [hstep.2.2, hstep.2.1]
        cases n with
        | zero =>
          rw [if_neg (by omega : ¬ i < retries), get_response_aux_zero]
          simp [backoffSeconds]
        | succ n2 =>
          rw [if_pos (by omega : i < retries)]
          rw [hrec.2.2.2]
          have hc1 : 1 ≤ ((get_response_aux retries delay bf oracle nowAt (i + 1)
              (n2 + 1)).2.filter isAttemptEvent).length := hrec.1 (by omega)
          simp only [List.length_cons]
          rw [show ((get_response_aux retries delay bf oracle nowAt (i + 1)
              (n2 + 1)).2.filter isAttemptEvent).length + 1 - 1 =
              (((get_response_aux retries delay bf oracle nowAt (i + 1)
              (n2 + 1)).2.filter isAttemptEvent).length - 1) + 1 from by omega]
          rw [List.range_succ_eq_map]
          simp only [List.map_cons, List.map_map, List.singleton_append]
          congr 1
          apply List.map_congr_left
          intro k hk
          simp only [Function.comp]
          rw [show i + (k + 1) + 1 = i + 1 + k + 1 from by omega]

/-- C6: `get_response` performs at most `1 + retries` attempts; when no
attempt yields a status-200 response it returns `none` (the embedding is a
total function, so no exception propagates); and the back-off sleeps of the
trace are exactly one per consecutive attempt pair, the one after attempt
`i` lasting `delay * backoff_factor ^ (i + 1)` time-units. -/
theorem C6_retry_loop (retries delay backoff_factor : Nat)
    (oracle : Nat → AttemptOutcome) (nowAt : Nat → Int) :
    ((get_response retries delay backoff_factor oracle nowAt).2.filter isAttemptEvent).length
      ≤ 1 + retries ∧
    ((∀ k, k < 1 + retries → isSuccess200 (oracle k) = false) →
      (get_response retries delay backoff_factor oracle nowAt).1 = none) ∧
    backoffSeconds (get_response retries delay backoff_factor oracle nowAt).2 =
      (List.range
          (((get_response retries delay backoff_factor oracle nowAt).2.filter
            isAttemptEvent).length - 1)).map
        (fun k => delay * backoff_factor ^ (k + 1)) := by
  have h := get_response_aux_spec retries delay backoff_factor oracle nowAt (1 + retries) 0
    (by omega)
  refine ⟨h.2.1, ?_, ?_⟩
  · intro hf
    exact (h.2.2.1 (fun k hk => by
      have := hf k hk
      rw [show (0 : Nat) + k = k from by omega]
      exact this)).1
  · unfold get_response
    rw [h.2.2.2]
    apply List.map_congr_left
    intro k hk
    rw [show (0 : Nat) + k + 1 = k + 1 from by omega]

/-- C6 witness: with all four attempts failing by transport exception
(default configuration retries = 3, delay = 2, back-off factor = 2) the
result is the failure sentinel and the back-off sleeps are 4, 8, 16. -/
theorem C6_retry_loop_witness :
    (∀ k, k < 1 + 3 → isSuccess200 ((fun _ => AttemptOutcome.exn) k) = false) ∧
    (get_response 3 2 2 (fun _ => AttemptOutcome.exn) (fun _ => 0)).1 = none ∧
    backoffSeconds (get_response 3 2 2 (fun _ => AttemptOutcome.exn) (fun _ => 0)).2 =
      [4, 8, 16] := by
  refine ⟨by decide, ?_, ?_⟩
  · exact (C6_retry_loop 3 2 2 (fun _ => AttemptOutcome.exn) (fun _ => 0)).2.1 (by decide)
  · decide

/-- C7: `handle_rate_limit` suspends for `reset - now + 1` seconds exactly
when the remaining quota is ≤ 0, and this sleep happens before a
status-200 response is returned: when the first attempt succeeds with
exhausted quota, the returned trace is the attempt followed by the rate
sleep, and the response is still returned. -/
theorem C7_rate_limit_wait (retries delay backoff_factor : Nat) :
    (∀ now remaining reset : Int, remaining ≤ 0 →
      handle_rate_limit now remaining reset = [ApiEvent.rateSleep (reset - now + 1)]) ∧
    (∀ (oracle : Nat → AttemptOutcome) (nowAt : Nat → Int) (r : HttpResponse),
      oracle 0 = AttemptOutcome.ok r → r.status = 200 → r.remaining ≤ 0 →
      get_response retries delay backoff_factor oracle nowAt =
        (some r, [ApiEvent.attempt 0, ApiEvent.rateSleep (r.reset - nowAt 0 + 1)])) := by
  constructor
  · intro now remaining reset h
    simp [handle_rate_limit, h]
  · intro oracle nowAt r h0 hst hrem
    unfold get_response
    rw [show 1 + retries = retries + 1 from by omega]
    rw [aux_succ_step retries delay backoff_factor oracle nowAt 0 retries r h0 hst]
    rw [handle_rate_limit, if_pos hrem]

/-- C7 witness: remaining quota 0 and reset epoch now + 5 produce a 6-second
suspension before the successful response is returned. -/
theorem C7_rate_limit_wait_witness :
    ((fun _ => AttemptOutcome.ok { status := 200, remaining := 0, reset := 105 }) 0 =
        AttemptOutcome.ok { status := 200, remaining := 0, reset := 105 } ∧
      (105 : Int) - 100 + 1 = 6) ∧
    get_response 3 2 2 (fun _ => AttemptOutcome.ok { status := 200, remaining := 0, reset := 105 })
        (fun _ => 100) =
      (some { status := 200, remaining := 0, reset := 105 },
       [ApiEvent.attempt 0, ApiEvent.rateSleep 6]) := by
  refine ⟨⟨rfl, by decide⟩, ?_⟩
  have h := (C7_rate_limit_wait 3 2 2).2
    (fun _ => AttemptOutcome.ok { status := 200, remaining := 0, reset := 105 })
    (fun _ => 100) { status := 200, remaining := 0, reset := 105 } rfl rfl (by decide)
  rw [h]
  decide

theorem page_chain_loop (fetch : String → Option PageResponse) :
    ∀ (url : String) (ps : List PageResponse), PageChain fetch url ps →
    ∀ fuel, ps.length ≤ fuel →
    get_repositories_loop fetch fuel (some url) = (ps.map (fun p => p.items)).join := by
  intro url ps hchain
  induction hchain with
  | last url2 p hf hn =>
    intro fuel hfuel
    cases fuel with
    | zero => simp at hfuel
    | succ f =>
      simp [get_repositories_loop, hf, hn]
  | failNext url2 p u hf hn hfu =>
    intro fuel hfuel
    cases fuel with
    | zero => simp at hfuel
    | succ f =>
      have hnil : get_repositories_loop fetch f (some u) = [] := by
        cases f with
        | zero => rfl
        | succ f2 => simp [get_repositories_loop, hfu]
      simp [get_repositories_loop, hf, hn, hnil]
  | step url2 p u ps2 hf hn hchain2 ih =>
    intro fuel hfuel
    cases fuel with
    | zero => simp at hfuel
    | succ f =>
      simp only [get_repositories_loop, hf, hn]
      rw [ih f (by simp at hfuel; omega)]
      simp

/-- C8: the paginated fetch returns items in page order: for any finite
chain of pages linked by the next-relation of the link header (ending
either with no next link or with a next link whose fetch fails, the
empty-page-on-failure policy), the result is the concatenation of the page
item lists, in chain order, through the ownership filter; a failure on the
very first page yields the empty result without raising; and only the
link-header part marked `rel="next"` is followed. -/
theorem C8_pagination (user_name visibility : String)
    (fetch : String → Option PageResponse) (ps : List PageResponse) (fuel : Nat)
    (hchain : PageChain fetch (github_repos_url visibility) ps)
    (hfuel : ps.length ≤ fuel) :
    get_repositories user_name fetch fuel visibility =
      ((ps.map (fun p => p.items)).join).filter (fun repo => repo.owner_login == user_name) ∧
    (∀ fetch2 : String → Option PageResponse, fetch2 (github_repos_url visibility) = none →
      ∀ fuel2, get_repositories user_name fetch2 fuel2 visibility = []) ∧
    findNextUrl "<https://api.github.com/user/repos?page=2>; rel=\"next\", <https://api.github.com/user/repos?page=5>; rel=\"last\"" =
      some "https://api.github.com/user/repos?page=2" ∧
    findNextUrl "<https://api.github.com/user/repos?page=5>; rel=\"last\"" = none := by
  refine ⟨?_, ?_, by decide, by decide⟩
  · unfold get_repositories
    rw [page_chain_loop fetch (github_repos_url visibility) ps hchain fuel hfuel]
  · intro fetch2 h0 fuel2
    unfold get_repositories
    have hnil : get_repositories_loop fetch2 fuel2 (some (github_repos_url visibility)) = [] := by
      cases fuel2 with
      | zero => rfl
      | succ f => simp [get_repositories_loop, h0]
    rw [hnil]
    rfl

/-- C8 witness: three pages of two repositories each, linked by
next-relations; the fetch returns the six repositories in page order. -/
theorem C8_pagination_witness :
    (PageChain exampleFetch (github_repos_url "public")
        [examplePage1, examplePage2, examplePage3] ∧
      ([examplePage1, examplePage2, examplePage3] : List PageResponse).length ≤ 5) ∧
    get_repositories "woodsj1206" exampleFetch 5 "public" =
      [mkRepo "r1" "woodsj1206", mkRepo "r2" "woodsj1206", mkRepo "r3" "woodsj1206",
       mkRepo "r4" "woodsj1206", mkRepo "r5" "woodsj1206", mkRepo "r6" "woodsj1206"] := by
  have hchain : PageChain exampleFetch (github_repos_url "public")
      [examplePage1, examplePage2, examplePage3] :=
    PageChain.step _ _ "https://api.github.com/user/repos?page=2" _ (by decide) (by decide)
      (PageChain.step _ _ "https://api.github.com/user/repos?page=3" _ (by decide) (by decide)
        (PageChain.last _ _ (by decide) (by decide)))
  refine ⟨⟨hchain, by decide⟩, ?_⟩
  have h := (C8_pagination "woodsj1206" "public" exampleFetch
    [examplePage1, examplePage2, examplePage3] 5 hchain (by decide)).1
  rw [h]
  decide

/-- C10: `get_repositories` returns exactly the fetched repositories whose
owner login equals the configured user name; a fetched repository with a
different owner login is filtered out of the result even though it was
retrieved. -/
theorem C10_owner_filter (user_name visibility : String)
    (fetch : String → Option PageResponse) (fuel : Nat) :
    (∀ r : Repository, r ∈ get_repositories user_name fetch fuel visibility ↔
      (r ∈ get_repositories_loop fetch fuel (some (github_repos_url visibility)) ∧
       r.owner_login = user_name)) ∧
    mkRepo "theirs" "someone-else" ∈
      get_repositories_loop exampleMixedFetch 1 (some (github_repos_url "public")) ∧
    mkRepo "theirs" "someone-else" ∉ get_repositories "woodsj1206" exampleMixedFetch 1 "public" ∧
    get_repositories "woodsj1206" exampleMixedFetch 1 "public" = [mkRepo "mine" "woodsj1206"] := by
  refine ⟨?_, by decide, by decide, by decide⟩
  intro r
  unfold get_repositories
  rw [List.mem_filter]
  simp [beq_iff_eq]

/-- C3: a freshly constructed traffic accumulator (default window of 14
days, construction date given as day ordinal within Python's representable
date range) has a timestamp map of exactly 14 distinct keys, the o-th key
being the `YYYY-MM-DDT00:00:00Z` rendering of the calendar date
`today - 14 + o` — 14 consecutive UTC dates ending yesterday — and every
key mapped to `(0, [])`. -/
theorem C3_fresh_window (today : Nat) (h14 : 14 ≤ today) (hmax : today ≤ 2932896) :
    (generate_past_dates today 14).length = 14 ∧
    ((generate_past_dates today 14).map Prod.fst).Nodup ∧
    (∀ p ∈ generate_past_dates today 14, p.2 = ((0 : Int), ([] : List (String × Int)))) ∧
    (∀ o, o < 14 → (generate_past_dates today 14).get? o =
      some (isoTimestamp (today - 14 + o), (0, []))) ∧
    (∀ p ∈ generate_past_dates today 14, isIsoTimestampShape p.1 = true) ∧
    (RepositoryTrafficMetric.init "views" "count" today).total_metric_at_timestamps =
      (generate_past_dates today 14).map (fun p => (some p.1, p.2)) := by
  refine ⟨by simp [generate_past_dates], ?_, ?_, ?_, ?_, rfl⟩
  · rw [show (generate_past_dates today 14).map Prod.fst =
        (List.range 14).map (fun o => isoTimestamp (today - 14 + o)) from by
      simp [generate_past_dates, List.map_map]]
    apply List.Nodup.map_on ?_ (List.nodup_range 14)
    intro x hx y hy he
    simp only [List.mem_range] at hx hy
    have hinj := isoTimestamp_inj (today - 14 + x) (today - 14 + y)
      (by omega) (by omega) he
    omega
  · intro p hp
    simp only [generate_past_dates, List.mem_map, List.mem_range] at hp
    obtain ⟨o, _, ho⟩ := hp
    rw [← ho]
  · intro o ho
    simp only [generate_past_dates, List.get?_map]
    rw [List.get?_range ho]
    rfl
  · intro p hp
    simp only [generate_past_dates, List.mem_map, List.mem_range] at hp
    obtain ⟨o, _, ho⟩ := hp
    rw [← ho]
    exact isoTimestamp_shape _

/-- C3 witness: construction on the day ordinal of 2025-02-20 (20139 days
after 1970-01-01); the window has 14 entries. -/
theorem C3_fresh_window_witness :
    (14 ≤ 20139 ∧ 20139 ≤ 2932896) ∧ (generate_past_dates 20139 14).length = 14 :=
  ⟨⟨by decide, by decide⟩, (C3_fresh_window 20139 (by decide) (by decide)).1⟩

/-- C10 witness: on the mixed-ownership fixture the owned repository is in
the result. -/
theorem C10_owner_filter_witness :
    mkRepo "mine" "woodsj1206" ∈ get_repositories "woodsj1206" exampleMixedFetch 1 "public" := by
  have h := (C10_owner_filter "woodsj1206" "public" exampleMixedFetch 1).1
    (mkRepo "mine" "woodsj1206")
  exact h.mpr ⟨by decide, rfl⟩
